import Mathlib

/-!
Verification of the AutoTranscribe pipeline-control layer (src/AT.py).

The source is a single Python script.  Pure string processing
(`sanitize_name`, `check_repetition`, suffix computation), the scanner
filter (`find_pending_files`), the validator decision (`is_valid_media_file`)
and the control flow of `process_file` are embedded as executable Lean
functions.  External collaborators (ffprobe, ffmpeg, whisper, mutagen,
difflib's SequenceMatcher, the filesystem) are modelled as oracles: an
`Env` record carries the value each collaborator call would return, and
`process_file` is a pure function from that oracle to a `RunResult`
recording the job outcome and every filesystem side effect the code
performs (moves, lock state, sidecar write, number of transcriber calls).
-/

namespace AutoTranscribe

/-! Constants, src/AT.py lines 29-39. -/

def MEDIA_EXTENSIONS : List String := [".mp3", ".wav", ".mp4", ".m4a"]

def MAX_RETRIES : Nat := 3

def MAX_DURATION : ℚ := 14400

def SKIP_DIR_NAME : String := "unable_to_repair_corrupt"

/-- The similarity threshold `0.9` of line 153, as the reduced fraction 9/10
(`repetitionThreshold_eq_nine_tenths` below identifies it with `9/10`). -/
def REPETITION_THRESHOLD : ℚ := ⟨9, 10, by decide, by decide⟩

/-- Line 41-42: `re.sub(r'[^a-zA-Z0-9_.-]', '_', name)` applied per character. -/
def sanitizeChar (c : Char) : Char :=
  if ('a' ≤ c ∧ c ≤ 'z') ∨ ('A' ≤ c ∧ c ≤ 'Z') ∨ ('0' ≤ c ∧ c ≤ '9')
      ∨ c = '_' ∨ c = '.' ∨ c = '-' then c else '_'

def sanitize_name (name : String) : String :=
  String.mk (name.data.map sanitizeChar)

/-- `pathlib.PurePath.suffix`: the extension from the last dot, empty when the
last dot is the first or the final character of the name. -/
def pathSuffix (name : String) : String :=
  let cs := name.data
  let dotIdxs := (List.range cs.length).filter (fun i => cs.getD i ' ' = '.')
  match dotIdxs.getLast? with
  | none => ""
  | some i => if 0 < i ∧ i < cs.length - 1 then String.mk (cs.drop i) else ""

/-- `pathlib.PurePath.stem`: the name with its suffix removed. -/
def pathStem (name : String) : String :=
  String.mk (name.data.take (name.data.length - (pathSuffix name).data.length))

/-- Line 126: `input_file.with_name(f"{input_file.stem}_repaired{input_file.suffix}")`. -/
def repairedName (name : String) : String :=
  pathStem name ++ "_repaired" ++ pathSuffix name

/-- Helper for `pySplit`: walk the characters, accumulating the current word
reversed; whitespace closes the current word. -/
def splitWordsAux : List Char → List Char → List String
  | [], cur => if cur = [] then [] else [String.mk cur.reverse]
  | c :: rest, cur =>
    if c.isWhitespace then
      if cur = [] then splitWordsAux rest []
      else String.mk cur.reverse :: splitWordsAux rest []
    else splitWordsAux rest (c :: cur)

/-- Python `str.split()` with no argument: split on whitespace runs, no
empty tokens. -/
def pySplit (text : String) : List String :=
  splitWordsAux text.data []

/-- `' '.join(ws)`, lines 158-159. -/
def joinWords (ws : List String) : String := String.intercalate " " ws

/-- Python `str.lower()` (ASCII range, which covers the extensions the code
compares). -/
def strLower (s : String) : String := String.mk (s.data.map Char.toLower)

/-- Lines 153-163: `check_repetition`.  The text-similarity ratio
(`difflib.SequenceMatcher(None, w1, w2).ratio()` in the source) is an external
library computation and is passed in as the oracle `sim`; the function itself
contributes the tokenisation, the short-text guard, the sliding windows and
the first-match short circuit. -/
def check_repetition (sim : String → String → ℚ) (text : String)
    (threshold : ℚ) (window_size : Nat) : Bool :=
  let words := pySplit text
  if words.length < window_size * 2 then false
  else
    (List.range (words.length - window_size)).any (fun i =>
      let window1 := joinWords ((words.drop i).take window_size)
      let window2 := joinWords ((words.drop (i + window_size)).take window_size)
      decide (sim window1 window2 > threshold))

/-! Validator, src/AT.py lines 88-108 (`is_valid_media_file`).  The ffprobe
invocation is the oracle `ProbeResult`; the function is the decision made on
top of it. -/

/-- The value found at `probe_data['format']['duration']` and what
`float(...)` does to it.  `missing` is the `.get(..., 0)` default path,
`null` is JSON null (the `duration is None` branch), `num q` is any value
`float` converts successfully, `unparsable` is a value `float` rejects
(the raised error is caught and yields `False`). -/
inductive JsonDuration where
  | missing
  | null
  | num (q : ℚ)
  | unparsable
deriving DecidableEq

structure ProbeResult where
  timedOut : Bool
  returncode : Int
  jsonOk : Bool
  duration : JsonDuration
deriving DecidableEq

def is_valid_media_file (r : ProbeResult) : Bool :=
  if r.timedOut then false
  else if r.returncode ≠ 0 then false
  else if ¬ r.jsonOk then false
  else
    match r.duration with
    | JsonDuration.missing => decide ((0 : ℚ) < 0 ∧ (0 : ℚ) ≤ MAX_DURATION)
    | JsonDuration.null => false
    | JsonDuration.num q => decide (0 < q ∧ q ≤ MAX_DURATION)
    | JsonDuration.unparsable => false

/-! Scanner, src/AT.py lines 59-80 (`find_pending_files`).  A `Candidate` is
one entry produced by the glob: its path components, and the oracle answers
for the two sibling-existence tests `f.with_suffix('.txt').exists()` and
`f.with_suffix('.srt').exists()`. -/

structure Candidate where
  parts : List String
  txtExists : Bool
  srtExists : Bool
deriving DecidableEq

/-- `f.name`: the last path component. -/
def candName (c : Candidate) : String := c.parts.getLastD ""

def find_pending_files (recursive : Bool) (found : List Candidate) : List Candidate :=
  let files_found :=
    if recursive then found.filter (fun f => decide (SKIP_DIR_NAME ∉ f.parts))
    else found
  files_found.filter (fun f =>
    decide (strLower (pathSuffix (candName f)) ∈ MEDIA_EXTENSIONS)
      && !(f.txtExists || f.srtExists))

/-! Transcription invoker, src/AT.py lines 238-254 (`transcribe_chunk`). -/

/-- One whisper subprocess run: it times out (caught, empty text), completes
with an exit code and stdout, or raises an exception the function does not
catch (e.g. the binary is missing) which then propagates to the caller. -/
inductive WhisperRun where
  | timeout
  | completed (returncode : Int) (stdout : String)
  | raised
deriving DecidableEq

/-- Lines 238-254: `some text` is a normal return, `none` is a propagated
exception. -/
def transcribe_chunk (r : WhisperRun) : Option String :=
  match r with
  | WhisperRun.timeout => some ""
  | WhisperRun.completed rc out => some (if rc = 0 then out else "")
  | WhisperRun.raised => none

/-! Pipeline executor, src/AT.py lines 165-236 (`process_file`). -/

/-- The ffmpeg conversion (lines 110-123): succeeds, returns `False`
(CalledProcessError or timeout, both caught), or raises an exception
`convert_to_audio` does not catch, which propagates out of `process_file`'s
try block. -/
inductive ConvResult where
  | ok
  | failed
  | raised
deriving DecidableEq

/-- Oracle for one `process_file` run: the value every collaborator call and
filesystem test would produce, plus two ghost attributes of the input file
(`sizeBytes`, `durationSeconds`) that are never consulted by the code. -/
structure Env where
  sim : String → String → ℚ
  lockExists : Bool
  validFirst : Bool
  repairOk : Bool
  convertResult : ConvResult
  existsAfterConvert : Bool
  whisperRuns : List WhisperRun
  formattedDate : Option String
  postRaises : Bool
  sizeBytes : Nat
  durationSeconds : Nat

inductive Outcome where
  | skipped
  | unableToRepair
  | conversionFailed
  | conversionRaised
  | missingAfterConvert
  | repetitionDetected
  | innerError
  | persisted
deriving DecidableEq

/-- Everything one `process_file` run did: terminal state, the on-disk name
of the input after the initial rename, lock bookkeeping, whether an
exception escaped to the caller, the sidecar contents if written, every
`shutil.move` performed (source name, destination name), and how many times
the whisper transcriber was invoked. -/
structure RunResult where
  outcome : Outcome
  finalName : String
  lockAcquired : Bool
  lockAtReturn : Bool
  raised : Bool
  sidecar : Option String
  moves : List (String × String)
  whisperCalls : Nat
deriving DecidableEq

/-- Lines 222-226: the text written to the `.txt` sidecar, with the optional
creation-date header. -/
def sidecarContent (formattedDate : Option String) (transcription : String) : String :=
  match formattedDate with
  | some d => "Creation Date: " ++ d ++ "\n\n" ++ transcription
  | none => transcription

/-- Lines 233-236: the `finally` block; `lock_file.rmdir()` runs exactly when
the lock object exists. -/
def finallyRelease (lockHeld : Bool) : Bool :=
  if lockHeld then false else lockHeld

/-- Intermediate result of the body of `process_file`'s try block
(lines 180-231): outcome, whether an exception propagates, sidecar contents,
moves beyond the initial rename, number of whisper invocations. -/
structure BodyOut where
  outcome : Outcome
  raised : Bool
  sidecar : Option String
  moves : List (String × String)
  whisperCalls : Nat
deriving DecidableEq

/-- Lines 193-231: the existence re-test after conversion, the single call to
`transcribe_chunk`, the repetition gate, and the metadata/write block whose
exceptions are caught at line 228.  There is no retry loop: exactly one
transcriber invocation happens on this path. -/
def transcription_block (env : Env) (repairMoves : List (String × String)) : BodyOut :=
  if ¬ env.existsAfterConvert then
    ⟨Outcome.missingAfterConvert, false, none, repairMoves, 0⟩
  else
    match transcribe_chunk (env.whisperRuns.headD WhisperRun.timeout) with
    | none => ⟨Outcome.innerError, false, none, repairMoves, 1⟩
    | some t =>
      if check_repetition env.sim t REPETITION_THRESHOLD 100 then
        ⟨Outcome.repetitionDetected, false, none, repairMoves, 1⟩
      else if env.postRaises then
        ⟨Outcome.innerError, false, none, repairMoves, 1⟩
      else
        ⟨Outcome.persisted, false, some (sidecarContent env.formattedDate t), repairMoves, 1⟩

/-- Lines 180-231.  Validation with the single repair attempt (a failed
repair just returns, lines 183-185 — the file is not moved anywhere), then
conversion for `.mp4`/`.m4a` containers, then the transcription block.  A
successful repair performed `shutil.move(repaired, original)` inside
`attempt_repair` (line 137). -/
def process_body (env : Env) (newName : String) : BodyOut :=
  if ¬ env.validFirst ∧ ¬ env.repairOk then
    ⟨Outcome.unableToRepair, false, none, [], 0⟩
  else
    let repairMoves :=
      if env.validFirst then [] else [(repairedName newName, newName)]
    let sfx := strLower (pathSuffix newName)
    if sfx = ".mp4" ∨ sfx = ".m4a" then
      match env.convertResult with
      | ConvResult.raised => ⟨Outcome.conversionRaised, true, none, repairMoves, 0⟩
      | ConvResult.failed => ⟨Outcome.conversionFailed, false, none, repairMoves, 0⟩
      | ConvResult.ok => transcription_block env repairMoves
    else transcription_block env repairMoves

/-- Lines 165-236.  The input is renamed to its sanitised name first
(line 166), the lock is tested (line 171) and the run exits `skipped` with
the other instance's lock left in place, or the lock is created (line 177),
the body runs, and the `finally` block releases the still-present lock on
every exit path, exceptional or not. -/
def process_file (env : Env) (fileName : String) : RunResult :=
  let newName := sanitize_name fileName
  let renameMoves := if newName ≠ fileName then [(fileName, newName)] else []
  if env.lockExists then
    { outcome := Outcome.skipped, finalName := newName, lockAcquired := false,
      lockAtReturn := true, raised := false, sidecar := none,
      moves := renameMoves, whisperCalls := 0 }
  else
    let b := process_body env newName
    { outcome := b.outcome, finalName := newName, lockAcquired := true,
      lockAtReturn := finallyRelease true, raised := b.raised,
      sidecar := b.sidecar, moves := renameMoves ++ b.moves,
      whisperCalls := b.whisperCalls }

/-- Lock objects under the lock root after `main`'s startup phase,
src/AT.py lines 260-272: `setup_logging`, argument parsing, signal-handler
registration, `find_pending_files`, `display_queue`.  None of these touches
the lock root, so whatever lock objects a previous process instance left
behind are carried through unchanged into the dispatch loop. -/
def locksAfterStartup (initialLocks : List String) : List String := initialLocks

/-! Spec-side definitions.  The next four definitions follow the words of
the specification (§4.5 Chunker, §4.3 failure policy, §4.2 `sweepStale`),
not the source: they state what the spec predicts so that it can be
compared with the behaviour of the embedded code. -/

/-- Modelled from the spec: the chunking size threshold, "e.g., 100 MB"
(§4.5).  No such threshold appears in src/AT.py. -/
def CHUNK_SIZE_THRESHOLD : Nat := 100 * 1024 * 1024

/-- Modelled from the spec: the chunk length, "e.g., 600s" (§4.5).  No such
length appears in src/AT.py. -/
def CHUNK_LENGTH_SECONDS : Nat := 600

/-- Modelled from the spec: `chunkCount = ceil(duration / chunkLength)`
(§4.5), for integral durations. -/
def specChunkCount (durationSeconds : Nat) : Nat :=
  (durationSeconds + CHUNK_LENGTH_SECONDS - 1) / CHUNK_LENGTH_SECONDS

/-- Modelled from the spec: the quarantine destination, the fixed
"unable to repair" subfolder sibling of the file (§4.3). -/
def quarantineTarget (name : String) : String := SKIP_DIR_NAME ++ "/" ++ name

/-- Claim C3's prediction, from the spec's words: when the file size exceeds
the threshold, the transcriber is invoked once per chunk,
`ceil(duration / chunkLength)` times. -/
def claimC3Pred (env : Env) (fileName : String) : Prop :=
  CHUNK_SIZE_THRESHOLD < env.sizeBytes →
    (process_file env fileName).whisperCalls = specChunkCount env.durationSeconds

/-- Claim C4's prediction, from the spec's words: when validation and the
repair attempt both fail, some performed move relocates the file into the
"unable to repair" subfolder. -/
def claimC4Pred (env : Env) (fileName : String) : Prop :=
  env.lockExists = false → env.validFirst = false → env.repairOk = false →
    ∃ mv ∈ (process_file env fileName).moves,
      mv.2 = quarantineTarget (process_file env fileName).finalName

/-- Claim C5's prediction, from the spec's words: the startup sweep removes
every existing lock object under the lock root. -/
def claimC5Pred : Prop :=
  ∀ initialLocks : List String, locksAfterStartup initialLocks = []

/-! Concrete oracles used by witnesses and counterexamples. -/

/-- A similarity oracle that rates every pair of windows 0 (nothing looks
repetitive). -/
def simZero : String → String → ℚ := fun _ _ => 0

/-- A similarity oracle that rates every pair of windows 1 (everything looks
repetitive). -/
def simOne : String → String → ℚ := fun _ _ => 1

/-- A run in which every collaborator behaves: lock free, file valid, no
conversion trouble, one successful transcriber call returning
"hello world". -/
def baseEnv : Env :=
  { sim := simZero, lockExists := false, validFirst := true, repairOk := false,
    convertResult := ConvResult.ok, existsAfterConvert := true,
    whisperRuns := [WhisperRun.completed 0 "hello world"],
    formattedDate := none, postRaises := false,
    sizeBytes := 0, durationSeconds := 0 }

/-- The transcriber scenario of claim C2: non-zero exits on attempts 1 and 2,
success with text on attempt 3. -/
def envC2 : Env :=
  { baseEnv with whisperRuns :=
      [WhisperRun.completed 1 "", WhisperRun.completed 1 "",
       WhisperRun.completed 0 "attempt three text"] }

/-- The chunking scenario of claim C3: a 200 MB, 1200-second file, for which
the spec predicts 2 chunks. -/
def envC3 : Env :=
  { baseEnv with sizeBytes := 200 * 1024 * 1024, durationSeconds := 1200 }

/-- The repair-failure scenario of claim C4: validation fails and the single
repair attempt fails. -/
def envC4 : Env := { baseEnv with validFirst := false, repairOk := false }

/-- A 200-word text every window pair of which `simOne` rates above the
threshold: the repetition detector flags it. -/
def repText : String := String.intercalate " " (List.replicate 200 "w")

/-- The repetitive-output scenario of claim C7: the transcriber returns
`repText` and the similarity oracle rates every window pair 1. -/
def envC7 : Env :=
  { baseEnv with
    sim := simOne
    whisperRuns := [WhisperRun.completed 0 repText] }

/-- A run that finds the lock already held by another instance. -/
def envLocked : Env := { baseEnv with lockExists := true }

end AutoTranscribe

namespace AutoTranscribe

/-- The threshold constant is the rational 9/10, that is the source's 0.9. -/
theorem repetitionThreshold_eq_nine_tenths : REPETITION_THRESHOLD = 9 / 10 := by
  rw [REPETITION_THRESHOLD, Rat.mk'_eq_divInt]
  norm_num [Rat.divInt_eq_div]

/-- Every run of `process_file` invokes the whisper transcriber at most
once: the single call at line 196 is the only one, on every path. -/
theorem whisperCalls_le_one (env : Env) (name : String) :
    (process_file env name).whisperCalls ≤ 1 := by
  unfold process_file process_body transcription_block
  dsimp only
  repeat' split
  all_goals first | exact Nat.zero_le 1 | exact Nat.le_refl 1

/-- Claim C1: for every invocation of `process_file` that successfully
acquires the lock (the lock object was not already present), the lock object
is absent when `process_file` returns, on every exit path — successful
persistence, validation/repair failure, conversion failure or exception,
repetition detection, transcription error — because the `finally` block
(lines 233-236) removes the still-present lock unconditionally. -/
theorem process_file_releases_lock (env : Env) (name : String)
    (h : env.lockExists = false) :
    (process_file env name).lockAcquired = true ∧
    (process_file env name).lockAtReturn = false := by
  simp [process_file, h, finallyRelease]

/-- Witness for C1: a concrete successful run acquires the lock and returns
with it absent. -/
theorem process_file_releases_lock_witness :
    baseEnv.lockExists = false ∧
    (process_file baseEnv "a.mp3").lockAcquired = true ∧
    (process_file baseEnv "a.mp3").lockAtReturn = false :=
  ⟨rfl, process_file_releases_lock baseEnv "a.mp3" rfl⟩

/-- Counterexample to claim C2: with a transcriber that fails (exit code 1)
on attempts 1 and 2 and would succeed with text on attempt 3, the code makes
exactly one transcriber invocation and persists the empty text the failed
first attempt produced; attempt 3 is never consulted and its text never
appears in the sidecar. -/
theorem retry_scenario_counterexample :
    (process_file envC2 "a.mp3").whisperCalls = 1 ∧
    (process_file envC2 "a.mp3").outcome = Outcome.persisted ∧
    (process_file envC2 "a.mp3").sidecar = some "" ∧
    ¬ ((process_file envC2 "a.mp3").whisperCalls = 3 ∧
       (process_file envC2 "a.mp3").sidecar = some "attempt three text") := by
  decide

/-- Claim C2 (amended): the single-file transcription path makes exactly one
transcription attempt — there is no retry loop and no inter-attempt
similarity short circuit (`MAX_RETRIES` is defined but never used).  The run
is unchanged if every attempt beyond the first is removed from the oracle,
and the transcriber is invoked at most once; a failed first attempt yields
empty text, which is then persisted. -/
theorem process_file_single_attempt (env : Env) (name : String) :
    process_file { env with whisperRuns := env.whisperRuns.take 1 } name
      = process_file env name ∧
    (process_file env name).whisperCalls ≤ 1 := by
  refine ⟨?_, whisperCalls_le_one env name⟩
  obtain ⟨sim, lk, v, rp, cv, ex, runs, fd, pr, sz, du⟩ := env
  cases runs <;> rfl

/-- Counterexample to claim C3: a 200 MB, 1200-second file is above the
spec's chunking threshold with predicted chunk count
`ceil(1200/600) = 2`, yet the code performs exactly one transcriber
invocation on the whole file. -/
theorem chunking_counterexample : ¬ claimC3Pred envC3 "a.mp3" := by
  unfold claimC3Pred
  decide

/-- Claim C3 (amended): the pipeline never chunks.  No size threshold or
duration partition exists in the code: the run is independent of the file's
size and duration, and the whole file is transcribed by at most one
transcriber invocation. -/
theorem process_file_no_chunking (env : Env) (name : String) (n m : Nat) :
    process_file { env with sizeBytes := n, durationSeconds := m } name
      = process_file env name ∧
    (process_file env name).whisperCalls ≤ 1 :=
  ⟨rfl, whisperCalls_le_one env name⟩

/-- Counterexample to claim C4: in a run whose validation and single repair
attempt both fail, no performed move has the "unable to repair" subfolder as
its destination — the file is not relocated at all. -/
theorem quarantine_counterexample : ¬ claimC4Pred envC4 "a.mp3" := by
  unfold claimC4Pred
  decide

/-- Claim C4 (amended): when validation fails and the single repair attempt
also fails, `process_file` terminates the job (lines 183-185 log and
return) with the lock released, no sidecar and no transcription, but it does
NOT relocate the file: the only move ever performed is the initial
sanitising rename, so the file stays in place and remains in future scan
results. -/
theorem repair_failure_no_relocation (env : Env) (name : String)
    (hl : env.lockExists = false) (hv : env.validFirst = false)
    (hr : env.repairOk = false) :
    (process_file env name).outcome = Outcome.unableToRepair ∧
    (process_file env name).sidecar = none ∧
    (process_file env name).whisperCalls = 0 ∧
    (process_file env name).lockAtReturn = false ∧
    (process_file env name).moves
      = (if sanitize_name name ≠ name then [(name, sanitize_name name)] else []) := by
  simp [process_file, process_body, hl, hv, hr, finallyRelease]

/-- Witness for the amended C4 at a concrete unrepairable file. -/
theorem repair_failure_no_relocation_witness :
    envC4.lockExists = false ∧ envC4.validFirst = false ∧ envC4.repairOk = false ∧
    ((process_file envC4 "a.mp3").outcome = Outcome.unableToRepair ∧
     (process_file envC4 "a.mp3").sidecar = none ∧
     (process_file envC4 "a.mp3").whisperCalls = 0 ∧
     (process_file envC4 "a.mp3").lockAtReturn = false ∧
     (process_file envC4 "a.mp3").moves
       = (if sanitize_name "a.mp3" ≠ "a.mp3"
          then [("a.mp3", sanitize_name "a.mp3")] else [])) :=
  ⟨rfl, rfl, rfl, repair_failure_no_relocation envC4 "a.mp3" rfl rfl rfl⟩

/-- Counterexample to claim C5: `main` performs no operation on the lock
root before scheduling, so a lock left by a crashed previous instance is
still there after startup — the claimed sweep, which would leave no lock
object behind, does not exist. -/
theorem stale_sweep_counterexample :
    locksAfterStartup ["stale.lock"] = ["stale.lock"] ∧ ¬ claimC5Pred := by
  constructor
  · rfl
  · intro h
    exact absurd (h ["stale.lock"]) (by simp [locksAfterStartup])

/-- Claim C5 (amended): the startup phase of `main` leaves every existing
lock object under the lock root in place (there is no stale-lock sweep), and
a file whose lock object is present is skipped by `process_file`; a stale
lock therefore does cause the file to be skipped until the lock is removed
by other means. -/
theorem startup_preserves_stale_locks (initialLocks : List String) (env : Env)
    (name : String) (h : env.lockExists = true) :
    locksAfterStartup initialLocks = initialLocks ∧
    (process_file env name).outcome = Outcome.skipped :=
  ⟨rfl, by simp [process_file, h]⟩

/-- Witness for the amended C5: one stale lock survives startup and the
corresponding file is skipped. -/
theorem startup_preserves_stale_locks_witness :
    envLocked.lockExists = true ∧
    (locksAfterStartup ["stale.lock"] = ["stale.lock"] ∧
     (process_file envLocked "a.mp3").outcome = Outcome.skipped) :=
  ⟨rfl, startup_preserves_stale_locks ["stale.lock"] envLocked "a.mp3" rfl⟩

/-- Claim C6: the repetition detector returns "not repetitive" whenever the
whitespace-tokenised word sequence has fewer than 2 × 100 = 200 words, and
otherwise returns "repetitive" exactly when some start index i below
`len(words) - 100` makes the similarity ratio of the rejoined windows
`words[i : i+100]` and `words[i+100 : i+200]` exceed the 0.9 threshold (the
scan stops at the first such pair, which does not change the decision). -/
theorem check_repetition_characterisation (sim : String → String → ℚ)
    (text : String) :
    check_repetition sim text REPETITION_THRESHOLD 100 = true ↔
      200 ≤ (pySplit text).length ∧
      ∃ i < (pySplit text).length - 100,
        sim (joinWords (((pySplit text).drop i).take 100))
            (joinWords (((pySplit text).drop (i + 100)).take 100))
          > REPETITION_THRESHOLD := by
  unfold check_repetition
  rcases Nat.lt_or_ge (pySplit text).length (100 * 2) with h | h
  · rw [if_pos h]
    simp only [Bool.false_eq_true, false_iff, not_and]
    intro hlen
    exact absurd hlen (by omega)
  · rw [if_neg (Nat.not_lt.mpr h)]
    rw [List.any_eq_true]
    constructor
    · rintro ⟨i, hi, hp⟩
      rw [List.mem_range] at hi
      exact ⟨by omega, i, hi, by simpa using hp⟩
    · rintro ⟨-, i, hi, hp⟩
      exact ⟨i, List.mem_range.mpr hi, by simpa using hp⟩

/-- Claim C7: whenever the run reaches transcription and the repetition
detector declares the assembled text repetitive, the job ends in the
repetition-detected state and no sidecar text is written — the text is
discarded entirely. -/
theorem repetitive_output_discarded (env : Env) (name : String) (t : String)
    (hl : env.lockExists = false)
    (hv : env.validFirst = true ∨ env.repairOk = true)
    (hc : env.convertResult = ConvResult.ok)
    (he : env.existsAfterConvert = true)
    (ht : transcribe_chunk (env.whisperRuns.headD WhisperRun.timeout) = some t)
    (hr : check_repetition env.sim t REPETITION_THRESHOLD 100 = true) :
    (process_file env name).outcome = Outcome.repetitionDetected ∧
    (process_file env name).sidecar = none := by
  have hblock : ∀ rm : List (String × String), transcription_block env rm
      = ⟨Outcome.repetitionDetected, false, none, rm, 1⟩ := by
    intro rm
    unfold transcription_block
    rw [if_neg (by simp [he]), ht]
    dsimp only
    rw [if_pos hr]
  have hcond : ¬ (¬ env.validFirst ∧ ¬ env.repairOk) := by
    rcases hv with hv | hv <;> simp [hv]
  have hbody : (process_body env (sanitize_name name)).outcome
        = Outcome.repetitionDetected ∧
      (process_body env (sanitize_name name)).sidecar = none := by
    unfold process_body
    rw [if_neg hcond]
    dsimp only
    split
    · rw [hc, hblock]
      exact ⟨rfl, rfl⟩
    · rw [hblock]
      exact ⟨rfl, rfl⟩
  simpa [process_file, hl] using hbody

set_option maxRecDepth 40000 in
/-- Witness for C7: a concrete 200-word transcription every window pair of
which the similarity oracle rates 1 is flagged, the job ends repetition
detected and no sidecar is written. -/
theorem repetitive_output_discarded_witness :
    envC7.lockExists = false ∧
    (envC7.validFirst = true ∨ envC7.repairOk = true) ∧
    envC7.convertResult = ConvResult.ok ∧
    envC7.existsAfterConvert = true ∧
    transcribe_chunk (envC7.whisperRuns.headD WhisperRun.timeout) = some repText ∧
    check_repetition envC7.sim repText REPETITION_THRESHOLD 100 = true ∧
    (process_file envC7 "a.mp3").outcome = Outcome.repetitionDetected ∧
    (process_file envC7 "a.mp3").sidecar = none := by
  have hcr : check_repetition envC7.sim repText REPETITION_THRESHOLD 100 = true := by
    decide
  have h := repetitive_output_discarded envC7 "a.mp3" repText rfl (Or.inl rfl)
    rfl rfl rfl hcr
  exact ⟨rfl, Or.inl rfl, rfl, rfl, rfl, hcr, h.1, h.2⟩

/-- Claim C8: the validator reports a file valid exactly when the probe did
not time out, exited with code 0, produced parseable JSON, and yielded a
duration value d that parses as a number with 0 < d ≤ MAX_DURATION (14400
seconds); a timeout, a non-zero exit, unparsable output, a missing or null
duration all yield invalid. -/
theorem is_valid_media_file_characterisation (r : ProbeResult) :
    is_valid_media_file r = true ↔
      r.timedOut = false ∧ r.returncode = 0 ∧ r.jsonOk = true ∧
      ∃ d : ℚ, r.duration = JsonDuration.num d ∧ 0 < d ∧ d ≤ MAX_DURATION := by
  obtain ⟨t, rc, j, d⟩ := r
  cases t <;> cases j <;> cases d <;>
    by_cases hrc : rc = 0 <;>
      simp [is_valid_media_file, hrc, lt_irrefl]

/-- Claim C9: the scanner returns a candidate as pending exactly when it was
produced by the traversal, its extension lower-cases into the supported
media set, neither a `.txt` nor an `.srt` sibling exists, and — in recursive
mode — no component of its path is the corrupt-marker directory name. -/
theorem find_pending_files_characterisation (recursive : Bool)
    (found : List Candidate) (c : Candidate) :
    c ∈ find_pending_files recursive found ↔
      c ∈ found ∧
      strLower (pathSuffix (candName c)) ∈ MEDIA_EXTENSIONS ∧
      c.txtExists = false ∧ c.srtExists = false ∧
      (recursive = true → SKIP_DIR_NAME ∉ c.parts) := by
  unfold find_pending_files
  cases recursive <;> simp [List.mem_filter] <;> tauto

/-- Claim C10: `process_file` renames the input to its sanitised name before
the lock is even tested, so a run that exits skipped because the lock is
already held has the (possible) rename as its only side effect: no lock is
acquired, no sidecar written, no transcriber invoked, and the move list is
exactly the sanitising rename when the name changes. -/
theorem rename_precedes_lock_test (env : Env) (name : String)
    (h : env.lockExists = true) :
    (process_file env name).finalName = sanitize_name name ∧
    (process_file env name).outcome = Outcome.skipped ∧
    (process_file env name).lockAcquired = false ∧
    (process_file env name).sidecar = none ∧
    (process_file env name).whisperCalls = 0 ∧
    (process_file env name).moves
      = (if sanitize_name name ≠ name then [(name, sanitize_name name)] else []) := by
  simp [process_file, h]

/-- Witness for C10: a held lock skips the file, yet the file "a b.mp3" has
already been moved to "a_b.mp3". -/
theorem rename_precedes_lock_test_witness :
    envLocked.lockExists = true ∧
    ((process_file envLocked "a b.mp3").finalName = sanitize_name "a b.mp3" ∧
     (process_file envLocked "a b.mp3").outcome = Outcome.skipped ∧
     (process_file envLocked "a b.mp3").lockAcquired = false ∧
     (process_file envLocked "a b.mp3").sidecar = none ∧
     (process_file envLocked "a b.mp3").whisperCalls = 0 ∧
     (process_file envLocked "a b.mp3").moves
       = (if sanitize_name "a b.mp3" ≠ "a b.mp3"
          then [("a b.mp3", sanitize_name "a b.mp3")] else [])) ∧
    (process_file envLocked "a b.mp3").moves = [("a b.mp3", "a_b.mp3")] :=
  ⟨rfl, rename_precedes_lock_test envLocked "a b.mp3" rfl, by decide⟩

end AutoTranscribe
